import Mathlib

/-!
Verification of the countdown, throttle and reveal logic of the
Plantando Verdades landing-page script (src/script.js), via a shallow
embedding of its pure state transitions.
-/

namespace PlantandoVerdades

/-! ## utils (src/script.js lines 10 to 47) -/

/-- utils.padZero: format a number with a leading zero, padding the
decimal string on the left with the character 0 up to length 2. -/
def padZero (num : Nat) : String :=
  let s := toString num
  if s.length < 2 then String.pushn "" '0' (2 - s.length) ++ s else s

/-- One invocation of the closure produced by utils.throttle, applied to
a scroll event carrying the scroll offset current at that moment.
State: the list of executed handler-body calls (each recorded with the
offset it read) paired with the inThrottle flag.  Within a single
throttle interval the timeout that resets inThrottle never fires, so
the flag only goes from false to true. -/
def throttleStep (p : List Nat × Bool) (offset : Nat) : List Nat × Bool :=
  if p.2 then p else (p.1 ++ [offset], true)

/-- The executions performed by the throttled handler for a burst of
scroll events that all arrive within one throttle interval, starting
from a fresh throttle state (inThrottle initially undefined, falsy). -/
def throttleInterval (offsets : List Nat) : List Nat :=
  (offsets.foldl throttleStep ([], false)).1

/-! ## CountdownTimer.calculateTimeUnits (src/script.js lines 186 to 193) -/

/-- The four displayed fields of the countdown, derived once per tick. -/
structure TimeUnits where
  days : Nat
  hours : Nat
  minutes : Nat
  seconds : Nat
deriving Repr, DecidableEq

/-- CountdownTimer.calculateTimeUnits: successive floor-division and
modulo of the millisecond distance.  The divisors are written exactly
as in the source: 1000*60*60*24, 1000*60*60, 1000*60, 1000. -/
def calculateTimeUnits (distance : Nat) : TimeUnits :=
  { days := distance / (1000 * 60 * 60 * 24)
    hours := (distance % (1000 * 60 * 60 * 24)) / (1000 * 60 * 60)
    minutes := (distance % (1000 * 60 * 60)) / (1000 * 60)
    seconds := (distance % (1000 * 60)) / 1000 }

/-- The urgent-mode condition tested by CountdownTimer.addPulseEffect
(src/script.js line 219): zero whole days remaining and fewer than 24
hours. -/
def urgentCondition (u : TimeUnits) : Prop := u.days = 0 ∧ u.hours < 24

instance (u : TimeUnits) : Decidable (urgentCondition u) := by
  unfold urgentCondition; infer_instance

/-- Modelled from the spec words of the refinement claim: the simpler
predicate that only checks that zero whole days remain. -/
def urgentConditionSimple (u : TimeUnits) : Prop := u.days = 0

instance (u : TimeUnits) : Decidable (urgentConditionSimple u) := by
  unfold urgentConditionSimple; infer_instance

/-! ## CountdownTimer tick state machine (src/script.js lines 143 to 275) -/

/-- The textContent of the four numeric field elements. -/
structure FieldTexts where
  days : String
  hours : String
  minutes : String
  seconds : String
deriving Repr, DecidableEq

/-- The observable state the CountdownTimer mutates: the field texts,
the urgent class on the container, whether the container content has
been replaced by the expiration message, how many style elements have
been appended to the document head, and whether the recurring interval
is registered with the scheduler. -/
structure CountdownState where
  endDate : Int
  texts : FieldTexts
  urgent : Bool
  expired : Bool
  injectedStyles : Nat
  intervalActive : Bool
deriving Repr, DecidableEq

/-- The CountdownTimer constructor state before init runs: interval is
null, container content intact, no urgent class, no injected styles. -/
def mkCountdownState (endDate : Int) (initialTexts : FieldTexts) : CountdownState :=
  { endDate := endDate, texts := initialTexts, urgent := false, expired := false
    injectedStyles := 0, intervalActive := false }

/-- The body of the per-unit loop in CountdownTimer.updateElements:
given the currently displayed text and the freshly padded value, return
the text displayed after the tick together with whether
animateNumberChange was invoked for this field. -/
def updateElement (current newValue : String) : String × Bool :=
  if current ≠ newValue then (newValue, true) else (current, false)

/-- CountdownTimer.updateElements over the four fields. -/
def updateElements (t : FieldTexts) (u : TimeUnits) : FieldTexts :=
  { days := (updateElement t.days (padZero u.days)).1
    hours := (updateElement t.hours (padZero u.hours)).1
    minutes := (updateElement t.minutes (padZero u.minutes)).1
    seconds := (updateElement t.seconds (padZero u.seconds)).1 }

/-- CountdownTimer.addPulseEffect: add the urgent class (idempotent
classList.add) when the condition holds; never remove it. -/
def addPulseEffect (s : CountdownState) (u : TimeUnits) : CountdownState :=
  if urgentCondition u then { s with urgent := true } else s

/-- CountdownTimer.handleExpiration: clearInterval (a no-op when the
interval is already cleared), replace the container content with the
expiration message, and append one style element to the head. -/
def handleExpiration (s : CountdownState) : CountdownState :=
  { s with intervalActive := false, expired := true
           injectedStyles := s.injectedStyles + 1 }

/-- CountdownTimer.updateDisplay at wall-clock time now. -/
def updateDisplay (s : CountdownState) (now : Int) : CountdownState :=
  let distance := s.endDate - now
  if distance < 0 then handleExpiration s
  else
    let u := calculateTimeUnits distance.toNat
    addPulseEffect { s with texts := updateElements s.texts u } u

/-- One scheduler step: the interval callback runs updateDisplay, but
only fires while the interval is registered. -/
def tick (s : CountdownState) (now : Int) : CountdownState :=
  if s.intervalActive then updateDisplay s now else s

/-- CountdownTimer.startCountdown: an immediate updateDisplay, then the
interval is registered. -/
def startCountdown (s : CountdownState) (now : Int) : CountdownState :=
  { updateDisplay s now with intervalActive := true }

/-- CountdownTimer.addVisualEffects: appends one style element for the
urgent pulse keyframes. -/
def addVisualEffects (s : CountdownState) : CountdownState :=
  { s with injectedStyles := s.injectedStyles + 1 }

/-- CountdownTimer.init: if the container element is absent, return at
once; otherwise start the countdown and install the visual effects. -/
def init (containerPresent : Bool) (s : CountdownState) (now : Int) : CountdownState :=
  if containerPresent then addVisualEffects (startCountdown s now) else s

/-! ## AnimationManager reveal targets (src/script.js lines 64 to 99) -/

/-- One reveal target: whether it is still registered with the
intersection observer, and whether it is in the revealed visual state
(opacity 1, translateY 0) rather than the hidden one set at setup. -/
structure RevealTarget where
  observed : Bool
  revealed : Bool
deriving Repr, DecidableEq

/-- The state setupIntersectionObserver puts each matched element in:
hidden (opacity 0, translateY 30px) and registered for observation. -/
def initialTarget : RevealTarget := { observed := true, revealed := false }

/-- Delivery of one intersection entry for a target.  The observer only
produces entries for targets it still observes; the callback reveals
the element and unobserves it when the entry is intersecting. -/
def observerStep (t : RevealTarget) (isIntersecting : Bool) : RevealTarget :=
  if t.observed then
    if isIntersecting then { observed := false, revealed := true } else t
  else t

/-! ## Helper lemmas on the time-unit arithmetic -/

lemma hours_le_23 (ms : Nat) : (calculateTimeUnits ms).hours ≤ 23 := by
  simp only [calculateTimeUnits]
  omega

lemma minutes_le_59 (ms : Nat) : (calculateTimeUnits ms).minutes ≤ 59 := by
  simp only [calculateTimeUnits]
  omega

lemma seconds_le_59 (ms : Nat) : (calculateTimeUnits ms).seconds ≤ 59 := by
  simp only [calculateTimeUnits]
  omega

lemma padZero_length_two : ∀ n < 100, (padZero n).length = 2 := by decide

lemma padZero_zero : padZero 0 = "00" := by decide

lemma calculateTimeUnits_zero :
    calculateTimeUnits 0 = { days := 0, hours := 0, minutes := 0, seconds := 0 } := rfl

/-! ## Helper lemmas on the state machines -/

lemma updateElement_fst (c v : String) : (updateElement c v).1 = v := by
  unfold updateElement
  split <;> simp_all

lemma updateElements_zero (t : FieldTexts) :
    updateElements t { days := 0, hours := 0, minutes := 0, seconds := 0 }
      = { days := "00", hours := "00", minutes := "00", seconds := "00" } := by
  simp [updateElements, updateElement_fst, padZero_zero]

lemma tick_inactive (s : CountdownState) (now : Int) (h : s.intervalActive = false) :
    tick s now = s := by
  simp [tick, h]

lemma foldl_tick_inactive (s : CountdownState) (ticks : List Int)
    (h : s.intervalActive = false) : ticks.foldl tick s = s := by
  induction ticks with
  | nil => rfl
  | cons t ts ih => rw [List.foldl_cons, tick_inactive s t h, ih]

lemma urgent_tick_mono (s : CountdownState) (now : Int) (h : s.urgent = true) :
    (tick s now).urgent = true := by
  by_cases ha : s.intervalActive = true
  · by_cases hd : s.endDate - now < 0
    · simp [tick, ha, updateDisplay, hd, handleExpiration, h]
    · simp only [tick, ha, if_true, updateDisplay, hd, if_false, addPulseEffect]
      split <;> simp [h]
  · simp [tick, ha, h]

lemma urgent_foldl_mono (s : CountdownState) (ticks : List Int) (h : s.urgent = true) :
    (ticks.foldl tick s).urgent = true := by
  induction ticks generalizing s with
  | nil => exact h
  | cons t ts ih => exact ih _ (urgent_tick_mono s t h)

lemma throttleStep_stable (p : List Nat × Bool) (xs : List Nat) (h : p.2 = true) :
    xs.foldl throttleStep p = p := by
  induction xs with
  | nil => rfl
  | cons x xs ih =>
      rw [List.foldl_cons]
      have hx : throttleStep p x = p := by simp [throttleStep, h]
      rw [hx, ih]

lemma observerStep_revealed_mono (t : RevealTarget) (e : Bool) (h : t.revealed = true) :
    (observerStep t e).revealed = true := by
  unfold observerStep
  by_cases ho : t.observed = true <;> by_cases he : e = true <;> simp_all

lemma foldl_observerStep_revealed (t : RevealTarget) (es : List Bool)
    (h : t.revealed = true) : (es.foldl observerStep t).revealed = true := by
  induction es generalizing t with
  | nil => exact h
  | cons e es ih => exact ih _ (observerStep_revealed_mono t e h)

lemma observerStep_unobserved (t : RevealTarget) (e : Bool) (h : t.observed = false) :
    observerStep t e = t := by
  simp [observerStep, h]

lemma foldl_observerStep_unobserved (t : RevealTarget) (es : List Bool)
    (h : t.observed = false) : es.foldl observerStep t = t := by
  induction es with
  | nil => rfl
  | cons e es ih => rw [List.foldl_cons, observerStep_unobserved t e h, ih]

/-! ## Theorems for the arithmetic claims -/

/-- Claim C1: for every non-negative millisecond delta ms, the countdown
time-unit decomposition computes days = ms / 86400000, hours =
(ms % 86400000) / 3600000, minutes = (ms % 3600000) / 60000, seconds =
(ms % 60000) / 1000, and the weighted sum of the four fields is at most
ms and exceeds ms - 1000. -/
theorem calculateTimeUnits_decomposition (ms : Nat) :
    (calculateTimeUnits ms).days = ms / 86400000
    ∧ (calculateTimeUnits ms).hours = (ms % 86400000) / 3600000
    ∧ (calculateTimeUnits ms).minutes = (ms % 3600000) / 60000
    ∧ (calculateTimeUnits ms).seconds = (ms % 60000) / 1000
    ∧ (calculateTimeUnits ms).days * 86400000 + (calculateTimeUnits ms).hours * 3600000
        + (calculateTimeUnits ms).minutes * 60000 + (calculateTimeUnits ms).seconds * 1000 ≤ ms
    ∧ ms < (calculateTimeUnits ms).days * 86400000 + (calculateTimeUnits ms).hours * 3600000
        + (calculateTimeUnits ms).minutes * 60000 + (calculateTimeUnits ms).seconds * 1000
        + 1000 := by
  simp only [calculateTimeUnits]
  norm_num
  omega

/-- Claim C9: for every non-negative millisecond delta, the computed
units satisfy hours ≤ 23, minutes ≤ 59, seconds ≤ 59 and days ≥ 0, so
the hours, minutes and seconds fields each render as exactly two
characters under padZero. -/
theorem calculateTimeUnits_bounds (ms : Nat) :
    (calculateTimeUnits ms).hours ≤ 23
    ∧ (calculateTimeUnits ms).minutes ≤ 59
    ∧ (calculateTimeUnits ms).seconds ≤ 59
    ∧ 0 ≤ (calculateTimeUnits ms).days
    ∧ (padZero (calculateTimeUnits ms).hours).length = 2
    ∧ (padZero (calculateTimeUnits ms).minutes).length = 2
    ∧ (padZero (calculateTimeUnits ms).seconds).length = 2 := by
  refine ⟨hours_le_23 ms, minutes_le_59 ms, seconds_le_59 ms, Nat.zero_le _, ?_, ?_, ?_⟩
  · exact padZero_length_two _ (by have := hours_le_23 ms; omega)
  · exact padZero_length_two _ (by have := minutes_le_59 ms; omega)
  · exact padZero_length_two _ (by have := seconds_le_59 ms; omega)

/-- Claim C10: over the reachable time units, the urgent-mode condition
of addPulseEffect (days = 0 and hours < 24) is extensionally equal to
the simpler predicate days = 0, because hours is always at most 23. -/
theorem urgentCondition_eq_simple (ms : Nat) :
    urgentCondition (calculateTimeUnits ms) ↔ urgentConditionSimple (calculateTimeUnits ms) := by
  unfold urgentCondition urgentConditionSimple
  have := hours_le_23 ms
  omega

/-! ## Theorems for the behavioural claims -/

/-- A running countdown state used to instantiate the tick theorems on
concrete inputs. -/
def runningState (endDate : Int) : CountdownState :=
  { mkCountdownState endDate
      { days := "00", hours := "00", minutes := "00", seconds := "00" }
    with intervalActive := true }

/-- Claim C2, counterexample: two scroll events with offsets 10 then 20
inside one throttle interval produce one execution, but that execution
reads the offset 10 of the first event, not the last offset 20: the
throttle in the source is leading-edge and drops trailing events. -/
theorem throttleInterval_not_last : throttleInterval [10, 20] ≠ [20] := by decide

/-- Claim C2 (amended): for every burst of one or more scroll events
arriving within one throttle interval, the handler body executes
exactly once for that interval, and that execution uses the scroll
offset of the first event of the burst. -/
theorem throttleInterval_once_first (x : Nat) (xs : List Nat) :
    throttleInterval (x :: xs) = [x] := by
  have h1 : throttleStep ([], false) x = ([x], true) := by simp [throttleStep]
  unfold throttleInterval
  rw [List.foldl_cons, h1, throttleStep_stable ([x], true) xs rfl]

/-- Claim C3: on a tick of a running countdown, the transition to the
expired state occurs exactly when the remainder endDate - now is
negative; on a tick where the remainder is exactly 0 the four fields
render as 00, the interval is not cancelled and the state stays
running. -/
theorem tick_expiration_boundary (s : CountdownState) (now : Int)
    (hact : s.intervalActive = true) (hrun : s.expired = false) :
    ((tick s now).expired = true ↔ s.endDate - now < 0)
    ∧ (s.endDate - now = 0 →
        (tick s now).texts
          = { days := "00", hours := "00", minutes := "00", seconds := "00" }
        ∧ (tick s now).intervalActive = true
        ∧ (tick s now).expired = false) := by
  constructor
  · by_cases hd : s.endDate - now < 0
    · simp [tick, hact, updateDisplay, hd, handleExpiration]
    · simp only [tick, hact, if_true, updateDisplay, hd, if_false, addPulseEffect]
      constructor
      · intro hcon
        exfalso
        revert hcon
        split <;> simp [hrun]
      · intro hcon; exact hcon.elim
  · intro h0
    have hd : ¬ s.endDate - now < 0 := by omega
    simp only [tick, hact, if_true, updateDisplay, h0]
    norm_num
    simp [calculateTimeUnits_zero, updateElements_zero, addPulseEffect, urgentCondition, hact, hrun]

/-- Claim C3, witness at a concrete running state with remainder 0. -/
theorem tick_expiration_boundary_witness :
    (tick (runningState 5000) 5000).texts
      = { days := "00", hours := "00", minutes := "00", seconds := "00" } :=
  ((tick_expiration_boundary (runningState 5000) 5000 rfl rfl).2 (by decide)).1

/-- Claim C4: the tick that observes a negative remainder performs
exactly the expiry render (one content replacement and one injected
style) and cancels the interval, and any number of additional scheduler
ticks past expiry leave the state unchanged, so re-entering the expired
processing path is never triggered and cancellation is not repeated. -/
theorem expiration_idempotent (s : CountdownState) (now : Int) (ticks : List Int)
    (hact : s.intervalActive = true) (hexp : s.endDate - now < 0) :
    tick s now = { s with intervalActive := false, expired := true
                          injectedStyles := s.injectedStyles + 1 }
    ∧ ticks.foldl tick (tick s now) = tick s now := by
  have h1 : tick s now = handleExpiration s := by
    simp [tick, hact, updateDisplay, hexp]
  constructor
  · rw [h1]; rfl
  · rw [h1]; exact foldl_tick_inactive _ ticks rfl

/-- Claim C4, witness: five extra ticks after a concrete expiry tick
change nothing. -/
theorem expiration_idempotent_witness :
    [2000, 3000, 4000, 5000, 6000].foldl tick (tick (runningState 0) 1000)
      = tick (runningState 0) 1000 :=
  (expiration_idempotent (runningState 0) 1000 [2000, 3000, 4000, 5000, 6000]
    rfl (by decide)).2

/-- Claim C5: when the container element is absent at construction, init
returns the constructor state untouched: no interval is registered, no
display update happens, no style is injected and no error is raised
(init is a total function). -/
theorem init_no_container (endDate : Int) (t : FieldTexts) (now : Int) :
    init false (mkCountdownState endDate t) now = mkCountdownState endDate t
    ∧ (init false (mkCountdownState endDate t) now).intervalActive = false
    ∧ (init false (mkCountdownState endDate t) now).injectedStyles = 0 := by
  exact ⟨rfl, rfl, rfl⟩

/-- Claim C6: a revealed target stays revealed under every further list
of intersection events, and the first qualifying event both reveals the
initial target and unregisters it from observation, after which every
event list leaves it unchanged. -/
theorem reveal_at_most_once (t : RevealTarget) (events : List Bool)
    (h : t.revealed = true) :
    (events.foldl observerStep t).revealed = true
    ∧ observerStep initialTarget true = { observed := false, revealed := true }
    ∧ ∀ es : List Bool,
        es.foldl observerStep (observerStep initialTarget true)
          = observerStep initialTarget true := by
  refine ⟨foldl_observerStep_revealed t events h, rfl, fun es => ?_⟩
  exact foldl_observerStep_unobserved _ es rfl

/-- Claim C6, witness: a revealed, unobserved target survives a mixed
event burst. -/
theorem reveal_at_most_once_witness :
    (([false, true, false].foldl observerStep
        { observed := false, revealed := true }).revealed = true) :=
  (reveal_at_most_once { observed := false, revealed := true } [false, true, false] rfl).1

/-- Claim C7: on a tick with non-negative remainder whose computed time
units satisfy the urgent condition (days = 0 and hours < 24), the
urgent class is added to the container, and it persists through every
later tick: no tick ever removes it. -/
theorem urgent_activation_persists (s : CountdownState) (now : Int) (ticks : List Int)
    (hact : s.intervalActive = true)
    (hpos : 0 ≤ s.endDate - now)
    (hcond : urgentCondition (calculateTimeUnits (s.endDate - now).toNat)) :
    (tick s now).urgent = true
    ∧ (ticks.foldl tick (tick s now)).urgent = true := by
  have hd : ¬ s.endDate - now < 0 := by omega
  have h1 : (tick s now).urgent = true := by
    simp only [tick, hact, if_true, updateDisplay, hd, if_false, addPulseEffect]
    simp [hcond]
  exact ⟨h1, urgent_foldl_mono _ ticks h1⟩

/-- Claim C7, witness: with five seconds remaining the urgent class is
set and survives a later tick. -/
theorem urgent_activation_persists_witness :
    ([1000].foldl tick (tick (runningState 5000) 0)).urgent = true :=
  (urgent_activation_persists (runningState 5000) 0 [1000] rfl (by decide) (by decide)).2

/-- Claim C8: a field element is mutated by a tick (animateNumberChange
runs) exactly when the freshly padded rendered string differs from the
text currently displayed; when they are equal the field is left
unchanged with no mutation. -/
theorem updateElement_only_on_change (current newValue : String) :
    ((updateElement current newValue).2 = true ↔ current ≠ newValue)
    ∧ (current = newValue → updateElement current newValue = (current, false)) := by
  unfold updateElement
  constructor
  · split <;> simp_all
  · intro h; simp [h]

/-- Claim C8, witness: an unchanged field text is untouched by the
update. -/
theorem updateElement_only_on_change_witness :
    updateElement "07" "07" = ("07", false) :=
  (updateElement_only_on_change "07" "07").2 rfl

end PlantandoVerdades
